import Mathlib

/-!
Verification development for the `rehype-timeseries-chart` plugin.

The development shallowly embeds the current implementation of the plugin
(`src/index.ts` of the package, together with `src/build-svg.ts` and the
`detectDateParser` variant of `src/date-format.ts`) into Lean:

* JavaScript runtime values that flow through the pipeline (`Date`, finite
  and non-finite numbers, `null`) are modelled by the inductive `JSVal`;
  JavaScript numbers that are only checked for finiteness are modelled as
  `Option ℚ`, with `none` standing for the non-finite results (`NaN`,
  `±Infinity`).  Exact IEEE-754 rounding/overflow is not modelled: numeric
  strings denote exact rationals.
* String splitting/trimming mirrors `String.prototype.split(',')`,
  `split('\n')` and `trim()` on the ASCII whitespace actually exercised by
  CSV blocks.
* The `d3-time-format` parsers created by `timeParse(..)` are modelled as
  executable parsers that succeed on exactly the strings the d3 specifier
  accepts (a `%Y` field is exactly four digits, `%m`/`%d`/`%H`/`%M`/`%S`
  are one or two digits, literal separators match themselves, and the
  whole string must be consumed).  The resulting calendar `Date` value is
  represented by an injective field encoding; calendar arithmetic itself
  (month roll-over and the like) lives inside the opaque timestamp and is
  never inspected by the plugin.
* `Date.parse` (a host-defined builtin whose acceptance outside ISO forms
  is implementation specific) is a parameter `dparse` of the development.
* The `d3-scale` / `d3-shape` / `d3-array` machinery used by `buildSvg`
  (fitted scales, tick lists, tick formatters and the line generator) is a
  parameter `D3Env`; `buildSvg` calls it exactly at the call sites of the
  source.
-/

/-- A JavaScript value produced by a column-0 parser: a valid `Date`
(carrying its timestamp), an invalid `Date` (`new Date(NaN)`), a finite
number, a non-finite number (`NaN`/`±Infinity`), or `null`. -/
inductive JSVal where
  | date (t : ℚ)
  | invalidDate
  | num (q : ℚ)
  | nan
  | null
deriving DecidableEq, Repr

/-- A JavaScript number that is only ever tested for finiteness:
`some q` is the finite number `q`, `none` is `NaN` or `±Infinity`. -/
abbrev JSNum := Option ℚ

/-! ## String utilities (`split`, `trim`) -/

/-- ASCII whitespace recognised by the model of `String.prototype.trim`. -/
def isJsWs (c : Char) : Bool :=
  c = ' ' ∨ c = '\t' ∨ c = '\n' ∨ c = '\r' ∨ c = '\x0b' ∨ c = '\x0c'

/-- Trim a character list on both ends (model of `trim()`). -/
def charTrim (l : List Char) : List Char :=
  ((l.dropWhile isJsWs).reverse.dropWhile isJsWs).reverse

/-- Model of `String.prototype.trim`. -/
def jsTrim (s : String) : String := String.mk (charTrim s.data)

/-- Split a character list at every occurrence of `sep`
(model of `String.prototype.split(sep)`; never returns `[]`,
and `"".split(sep)` is `[""]`). -/
def splitList (sep : Char) : List Char → List (List Char)
  | [] => [[]]
  | c :: cs =>
    match splitList sep cs, decide (c = sep) with
    | r, true => [] :: r
    | [], false => [[c]]
    | h :: t, false => (c :: h) :: t

/-- Model of `line.trim().split(',').map((c) => c.trim())`, the cell
splitting applied to every header/data line. -/
def splitTrim (line : String) : List String :=
  (splitList ',' (charTrim line.data)).map (fun cs => String.mk (charTrim cs))

/-- Model of `raw.split('\n')`. -/
def linesOf (raw : String) : List String :=
  (splitList '\n' raw.data).map String.mk

/-- Model of `texts.join('\n')`. -/
def joinLines (texts : List String) : String :=
  String.mk (List.intercalate ['\n'] (texts.map String.data))

/-! ## The `Number(..)` string coercion

Model of the ECMAScript `StringNumericLiteral` grammar on exact
rationals: the empty (or all-whitespace) string is `0`; signed decimal
literals with optional fraction and exponent denote their exact value;
`0x`/`0o`/`0b` literals denote their integer value; `Infinity` and every
non-matching string map to `none` (not a finite number). -/

/-- Digit value of a hex digit, if any. -/
def hexDigitVal (c : Char) : Option Nat :=
  if c.isDigit then some (c.toNat - 48)
  else if 'a' ≤ c ∧ c ≤ 'f' then some (c.toNat - 87)
  else if 'A' ≤ c ∧ c ≤ 'F' then some (c.toNat - 55)
  else none

/-- Value of a digit string in base `b` via the given digit reader. -/
def radixVal (b : Nat) (dig : Char → Option Nat) : List Char → Option Nat
  | [] => none
  | l => l.foldlM (fun acc c => (dig c).map (fun d => acc * b + d)) 0

/-- Greedily consume decimal digits, returning their value, their count
and the remainder. -/
def takeDecDigits : List Char → Nat × Nat × List Char
  | [] => (0, 0, [])
  | c :: cs =>
    if c.isDigit then
      let (v, n, r) := takeDecDigits cs
      -- digits are accumulated most-significant first
      ((c.toNat - 48) * 10 ^ n + v, n + 1, r)
    else (0, 0, c :: cs)

/-- Parse `ExponentPart` digits after `e`/`E` (with optional sign). -/
def jsExpPart : List Char → Option ℤ
  | '+' :: r => match takeDecDigits r with
                | (v, n, []) => if n = 0 then none else some (v : ℤ)
                | _ => none
  | '-' :: r => match takeDecDigits r with
                | (v, n, []) => if n = 0 then none else some (-(v : ℤ))
                | _ => none
  | r => match takeDecDigits r with
         | (v, n, []) => if n = 0 then none else some (v : ℤ)
         | _ => none

/-- Parse an unsigned decimal literal (`DecimalDigits ['.' DecimalDigits?]
ExponentPart?` or `'.' DecimalDigits ExponentPart?`); `Infinity` is not a
finite number. -/
def jsUnsignedDec (l : List Char) : Option ℚ :=
  if l = ['I', 'n', 'f', 'i', 'n', 'i', 't', 'y'] then none
  else
    let (iv, ic, r1) := takeDecDigits l
    match r1 with
    | '.' :: r2 =>
      let (fv, fc, r3) := takeDecDigits r2
      if ic = 0 ∧ fc = 0 then none
      else
        let mant : ℚ := (iv : ℚ) + (fv : ℚ) / ((10 : ℚ) ^ fc)
        match r3 with
        | [] => some mant
        | 'e' :: r4 => (jsExpPart r4).map (fun e => mant * (10 : ℚ) ^ e)
        | 'E' :: r4 => (jsExpPart r4).map (fun e => mant * (10 : ℚ) ^ e)
        | _ => none
    | [] => if ic = 0 then none else some (iv : ℚ)
    | 'e' :: r2 =>
      if ic = 0 then none
      else (jsExpPart r2).map (fun e => (iv : ℚ) * (10 : ℚ) ^ e)
    | 'E' :: r2 =>
      if ic = 0 then none
      else (jsExpPart r2).map (fun e => (iv : ℚ) * (10 : ℚ) ^ e)
    | _ => none

/-- Parse a `StrNumericLiteral` (optionally signed decimal literal, or an
unsigned `0x`/`0o`/`0b` literal). -/
def jsNumLit : List Char → Option ℚ
  | '0' :: 'x' :: r => (radixVal 16 hexDigitVal r).map (fun n => (n : ℚ))
  | '0' :: 'X' :: r => (radixVal 16 hexDigitVal r).map (fun n => (n : ℚ))
  | '0' :: 'o' :: r =>
    (radixVal 8 (fun c => if '0' ≤ c ∧ c ≤ '7' then some (c.toNat - 48) else none) r).map
      (fun n => (n : ℚ))
  | '0' :: 'O' :: r =>
    (radixVal 8 (fun c => if '0' ≤ c ∧ c ≤ '7' then some (c.toNat - 48) else none) r).map
      (fun n => (n : ℚ))
  | '0' :: 'b' :: r =>
    (radixVal 2 (fun c => if c = '0' ∨ c = '1' then some (c.toNat - 48) else none) r).map
      (fun n => (n : ℚ))
  | '0' :: 'B' :: r =>
    (radixVal 2 (fun c => if c = '0' ∨ c = '1' then some (c.toNat - 48) else none) r).map
      (fun n => (n : ℚ))
  | '+' :: r => jsUnsignedDec r
  | '-' :: r => (jsUnsignedDec r).map (fun q => -q)
  | l => jsUnsignedDec l

/-- Model of `Number(s)` (equivalently unary `+s`) restricted to finite
results: `some q` when the coercion yields the finite number `q`, `none`
when it yields `NaN` or `±Infinity`. -/
def jsNumber (s : String) : Option ℚ :=
  match charTrim s.data with
  | [] => some 0
  | l => jsNumLit l

/-! ## d3 `timeParse` models and the format detector -/

/-- Injective encoding of the `Date` built by a d3 parse from its broken
down fields.  Calendar normalisation (e.g. month 13 rolling over) happens
inside the opaque timestamp and is never inspected by the plugin. -/
def d3DateEnc (y m d hh mi ss : ℤ) : ℚ :=
  (((((y * 12 + (m - 1)) * 31 + (d - 1)) * 24 + hh) * 60 + mi) * 60 + ss : ℤ)

/-- Consume exactly four decimal digits (d3 `%Y`). -/
def takeDigits4 : List Char → Option (ℤ × List Char)
  | a :: b :: c :: d :: r =>
    if a.isDigit ∧ b.isDigit ∧ c.isDigit ∧ d.isDigit then
      some (((a.toNat - 48) * 1000 + (b.toNat - 48) * 100 +
             (c.toNat - 48) * 10 + (d.toNat - 48) : Nat), r)
    else none
  | _ => none

/-- Greedily consume one or two decimal digits
(d3 `%m`/`%d`/`%H`/`%M`/`%S`). -/
def takeDigits2 : List Char → Option (ℤ × List Char)
  | a :: b :: r =>
    if a.isDigit then
      if b.isDigit then some (((a.toNat - 48) * 10 + (b.toNat - 48) : Nat), r)
      else some (((a.toNat - 48 : Nat) : ℤ), b :: r)
    else none
  | [a] => if a.isDigit then some (((a.toNat - 48 : Nat) : ℤ), []) else none
  | [] => none

/-- Model of `timeParse('%Y-%m-%d')`; `null` when the string does not
match the specifier in full. -/
def timeParseYmd (s : String) : JSVal :=
  match takeDigits4 s.data with
  | some (y, '-' :: r1) =>
    match takeDigits2 r1 with
    | some (m, '-' :: r2) =>
      match takeDigits2 r2 with
      | some (d, []) => .date (d3DateEnc y m d 0 0 0)
      | _ => .null
    | _ => .null
  | _ => .null

/-- Model of `timeParse('%Y-%m')`. -/
def timeParseYm (s : String) : JSVal :=
  match takeDigits4 s.data with
  | some (y, '-' :: r1) =>
    match takeDigits2 r1 with
    | some (m, []) => .date (d3DateEnc y m 1 0 0 0)
    | _ => .null
  | _ => .null

/-- Model of `timeParse('%Y')`. -/
def timeParseY (s : String) : JSVal :=
  match takeDigits4 s.data with
  | some (y, []) => .date (d3DateEnc y 1 1 0 0 0)
  | _ => .null

/-- Model of `timeParse('%H:%M:%S')` (d3's default date is 1900-01-01). -/
def timeParseHms (s : String) : JSVal :=
  match takeDigits2 s.data with
  | some (hh, ':' :: r1) =>
    match takeDigits2 r1 with
    | some (mi, ':' :: r2) =>
      match takeDigits2 r2 with
      | some (ss, []) => .date (d3DateEnc 1900 1 1 hh mi ss)
      | _ => .null
    | _ => .null
  | _ => .null

/-- Model of `timeParse('%H:%M')`. -/
def timeParseHm (s : String) : JSVal :=
  match takeDigits2 s.data with
  | some (hh, ':' :: r1) =>
    match takeDigits2 r1 with
    | some (mi, []) => .date (d3DateEnc 1900 1 1 hh mi 0)
    | _ => .null
  | _ => .null

/-- Model of `timeParse('%H')`. -/
def timeParseH (s : String) : JSVal :=
  match takeDigits2 s.data with
  | some (hh, []) => .date (d3DateEnc 1900 1 1 hh 0 0)
  | _ => .null

/-- Parser of the `unix-sec` pattern: `(s) => new Date(+s * 1000)`. -/
def unixSecParser (s : String) : JSVal :=
  match jsNumber s with
  | some q => .date (q * 1000)
  | none => .invalidDate

/-- Parser of the `unix-ms` pattern: `(s) => new Date(+s)`. -/
def unixMsParser (s : String) : JSVal :=
  match jsNumber s with
  | some q => .date q
  | none => .invalidDate

/-- Parser of the `unix-µs` pattern: `(s) => new Date(+s / 1000)`. -/
def unixUsParser (s : String) : JSVal :=
  match jsNumber s with
  | some q => .date (q / 1000)
  | none => .invalidDate

/-- Parser of the `Date.parse()` fallback:
`(s) => new Date(Date.parse(s))`, where `dparse` models the host's
`Date.parse` (`some t` a finite timestamp, `none` for `NaN`). -/
def dateParseParser (dparse : String → Option ℤ) (s : String) : JSVal :=
  match dparse s with
  | some t => .date (t : ℚ)
  | none => .invalidDate

/-- Parser of the numeric fallback: `(s) => Number(s)`. -/
def numberParser (s : String) : JSVal :=
  match jsNumber s with
  | some q => .num q
  | none => .nan

/-- Model of `/^\d{4}-\d{2}-\d{2}$/.test s`. -/
def reYmd (s : String) : Bool :=
  match s.data with
  | [a, b, c, d, e, f, g, h, i, j] =>
    a.isDigit ∧ b.isDigit ∧ c.isDigit ∧ d.isDigit ∧ e = '-' ∧
    f.isDigit ∧ g.isDigit ∧ h = '-' ∧ i.isDigit ∧ j.isDigit
  | _ => false

/-- Model of `/^\d{4}-\d{2}$/.test s`. -/
def reYm (s : String) : Bool :=
  match s.data with
  | [a, b, c, d, e, f, g] =>
    a.isDigit ∧ b.isDigit ∧ c.isDigit ∧ d.isDigit ∧ e = '-' ∧
    f.isDigit ∧ g.isDigit
  | _ => false

/-- Model of `/^\d{2}:\d{2}:\d{2}$/.test s`. -/
def reHms (s : String) : Bool :=
  match s.data with
  | [a, b, c, d, e, f, g, h] =>
    a.isDigit ∧ b.isDigit ∧ c = ':' ∧ d.isDigit ∧ e.isDigit ∧ f = ':' ∧
    g.isDigit ∧ h.isDigit
  | _ => false

/-- Model of `/^\d{2}:\d{2}$/.test s`. -/
def reHm (s : String) : Bool :=
  match s.data with
  | [a, b, c, d, e] => a.isDigit ∧ b.isDigit ∧ c = ':' ∧ d.isDigit ∧ e.isDigit
  | _ => false

/-- Model of `/^\d{n}$/.test s` (`n` the fixed digit width). -/
def reDigits (n : Nat) (s : String) : Bool :=
  s.data.length = n ∧ s.data.all (fun c => c.isDigit)

/-- Model of `/^-?\d+$/.test s`. -/
def reSignedInt (s : String) : Bool :=
  match s.data with
  | '-' :: r => (decide (r ≠ [])) ∧ r.all (fun c => c.isDigit)
  | r => (decide (r ≠ [])) ∧ r.all (fun c => c.isDigit)

/-- Metadata returned for a detected format (`DateInfo` of
`date-format.ts`). -/
structure DateInfo where
  parser : String → JSVal
  isDate : Bool

/-- `true` when the sample matches one of the nine explicit date/time and
fixed-width epoch patterns of the `patterns` table. -/
def matchesExplicit (s : String) : Bool :=
  reYmd s || reYm s || reDigits 4 s || reHms s || reHm s ||
  reDigits 2 s || reDigits 10 s || reDigits 13 s || reDigits 16 s

/-- Model of `detectDateParser` (`date-format.ts`): the nine explicit
patterns in table order, then the `Date.parse()` fallback, then the
signed-integer numeric fallback; `none` when nothing matches. -/
def detectDateParser (dparse : String → Option ℤ) (sample : String) :
    Option DateInfo :=
  if reYmd sample then some ⟨timeParseYmd, true⟩
  else if reYm sample then some ⟨timeParseYm, true⟩
  else if reDigits 4 sample then some ⟨timeParseY, true⟩
  else if reHms sample then some ⟨timeParseHms, true⟩
  else if reHm sample then some ⟨timeParseHm, true⟩
  else if reDigits 2 sample then some ⟨timeParseH, true⟩
  else if reDigits 10 sample then some ⟨unixSecParser, true⟩
  else if reDigits 13 sample then some ⟨unixMsParser, true⟩
  else if reDigits 16 sample then some ⟨unixUsParser, true⟩
  else
    match dparse sample with
    | some _ => some ⟨dateParseParser dparse, true⟩
    | none =>
      if reSignedInt sample then some ⟨numberParser, false⟩
      else none

/-! ## Row validation (`rowMatchesFormat`, `isCompleteRow`) -/

/-- The key-cell check of `rowMatchesFormat`: a date detector requires a
valid `Date` (`xVal instanceof Date && !isNaN(xVal.getTime())`), a
numeric detector requires a finite number
(`typeof xVal === 'number' && isFinite(xVal)`). -/
def keyCellOk (det : DateInfo) (c : String) : Bool :=
  if det.isDate then
    match det.parser c with
    | .date _ => true
    | _ => false
  else
    match det.parser c with
    | .num _ => true
    | _ => false

/-- Model of `rowMatchesFormat`: the first cell must parse under the
detector, the remaining cells must be finite numbers.  (The pipeline only
calls it on rows whose length equals the header length, which is at least
two, so the empty case is unreachable.) -/
def rowMatchesFormat (cells : List String) (det : DateInfo) : Bool :=
  match cells with
  | [] => false
  | c0 :: rest => keyCellOk det c0 && rest.all (fun c => (jsNumber c).isSome)

/-- Model of `isCompleteRow`. -/
def isCompleteRow (cells : List String) (headerLen : Nat) : Bool :=
  cells.length == headerLen

/-- The row-collection loop of the plugin (`for i in 1..` of
`rehypeTimeseriesChart`): an incomplete row stops the scan keeping what
was accumulated (`break`), an invalid complete row aborts the whole
transform (`none`), a valid complete row is accumulated. -/
def collectRows (det : DateInfo) (headerLen : Nat) :
    List String → Option (List (List String))
  | [] => some []
  | l :: ls =>
    let cells := splitTrim l
    if isCompleteRow cells headerLen then
      if rowMatchesFormat cells det then
        (collectRows det headerLen ls).map (fun r => cells :: r)
      else none
    else some []

/-! ## Parsed rows and series -/

/-- One parsed data row: the key value `x` and the JS object fields
`obj[header[c]] = Number(cells[c])`, in assignment order. -/
structure ParsedRow where
  x : JSVal
  fields : List (String × JSNum)

/-- Model of the object-building step of the plugin. -/
def parseRow (det : DateInfo) (headerCells : List String)
    (cells : List String) : ParsedRow :=
  { x := det.parser (cells.getD 0 "")
    fields := ((headerCells.drop 1).zip (cells.drop 1)).map
      (fun p => (p.1, jsNumber p.2)) }

/-- JS property read `r[name]`: the last assignment wins (later writes to
the same key overwrite earlier ones); a missing property reads as a
non-number. -/
def jsGet (fields : List (String × JSNum)) (name : String) : JSNum :=
  match (fields.filter (fun p => p.1 == name)).getLast? with
  | some p => p.2
  | none => none

/-- A data point of a series. -/
structure SeriesPoint where
  x : JSVal
  y : JSNum
deriving DecidableEq

/-- A named series. -/
structure Series where
  name : String
  values : List SeriesPoint
deriving DecidableEq

/-- Model of `toSeries`. -/
def toSeries (rows : List ParsedRow) (names : List String) : List Series :=
  names.map (fun name =>
    { name := name
      values := rows.map (fun r => { x := r.x, y := jsGet r.fields name }) })

/-! ## HAST / SVG element model -/

/-- An attribute value: string, number, or string list (`className`). -/
inductive AVal where
  | s (v : String)
  | n (v : ℚ)
  | strs (v : List String)
deriving DecidableEq

/-- A HAST node: text, or an element with properties and children.
Properties are kept in insertion order; a later entry for the same key
overwrites an earlier one (JS object-spread semantics). -/
inductive Hast where
  | text (value : String)
  | element (tagName : String) (props : List (String × AVal))
      (children : List Hast)

/-- Model of the `el` element factory. -/
def el (tag : String) (props : List (String × AVal))
    (children : List Hast) : Hast :=
  .element tag props children

/-- Model of the `rect` helper. -/
def svgRect (x y w h : ℚ) (props : List (String × AVal)) : Hast :=
  el "rect" ([("x", .n x), ("y", .n y), ("width", .n w), ("height", .n h)]
    ++ props) []

/-- Model of the `line` helper (`stroke: '#000'` is overridable by the
extra props, as with JS spread). -/
def svgLine (x1 y1 x2 y2 : ℚ) (props : List (String × AVal)) : Hast :=
  el "line" ([("x1", .n x1), ("y1", .n y1), ("x2", .n x2), ("y2", .n y2),
    ("stroke", .s "#000")] ++ props) []

/-- Model of the `txt` helper. -/
def svgText (x y : ℚ) (value : String) (props : List (String × AVal)) :
    Hast :=
  el "text" ([("x", .n x), ("y", .n y), ("fill", .s "#000"),
    ("font-size", .n 10), ("text-anchor", .s "middle")] ++ props)
    [.text value]

/-- Model of the `svg` root helper (numeric formatting inside the
`viewBox` string is approximated by the rational printer). -/
def svgRoot (w h : ℚ) (children : List Hast) : Hast :=
  el "svg" [("xmlns", .s "http://www.w3.org/2000/svg"),
    ("viewBox", .s ("0 0 " ++ toString w ++ " " ++ toString h)),
    ("preserveAspectRatio", .s "none"), ("width", .s "100%"),
    ("height", .s "100%")] children

/-- Read a property of an element with JS spread semantics (last write
wins). -/
def getProp (e : Hast) (key : String) : Option AVal :=
  match e with
  | .text _ => none
  | .element _ props _ =>
    ((props.filter (fun p => p.1 == key)).getLast?).map (fun p => p.2)

/-- The fixed categorical palette `schemeCategory10` of
`d3-scale-chromatic`. -/
def schemeCategory10 : List String :=
  ["#1f77b4", "#ff7f0e", "#2ca02c", "#d62728", "#9467bd",
   "#8c564b", "#e377c2", "#7f7f7f", "#bcbd22", "#17becf"]

/-- Model of JS `String(t)` on a number (numeric formatting approximated
by the rational printer; only used for label text). -/
def jsNumToString (q : ℚ) : String := toString q

/-- The `d3-scale`/`d3-shape` machinery used by `buildSvg`, as an opaque
environment: fitted scales built from a domain sample list and a range,
tick lists, the tick formatter, and the monotone line generator (which
returns `null`, i.e. `none`, for degenerate inputs). -/
structure D3Env where
  scaleTimeOf : List JSVal → ℚ × ℚ → (JSVal → ℚ)
  scaleLinearXOf : List JSVal → ℚ × ℚ → (JSVal → ℚ)
  scaleYOf : List JSNum → ℚ × ℚ → (JSNum → ℚ)
  ticksXOf : Bool → List JSVal → ℚ × ℚ → ℤ → List JSVal
  ticksYOf : List JSNum → ℚ × ℚ → Nat → List ℚ
  tickFormatOf : Bool → List JSVal → ℚ × ℚ → (JSVal → String)
  lineGen : (SeriesPoint → ℚ) → (SeriesPoint → ℚ) → List SeriesPoint →
    Option String

/-- Plugin options (`ChartOptions`); `none` means the caller omitted the
field, defaults are applied at the use sites as in the source. -/
structure ChartOptions where
  width : Option ℚ := none
  height : Option ℚ := none
  title : Option String := none
  textColor : Option String := none
  backgroundColor : Option String := none
  containerClass : Option String := none
  codeLanguage : Option String := none
  saveOriginal : Option Bool := none

/-- The legend swatch of series `i`: a 12×12 rectangle at
`x0 = M.left + i*itemSpacing`, `y = legendY - 8`, filled with
`schemeCategory10[i % schemeCategory10.length]`. -/
def legendSwatchEl (i : Nat) : Hast :=
  svgRect (50 + (i : ℚ) * 100) (40 - 20 - 8) 12 12
    [("fill", .s (schemeCategory10.getD (i % schemeCategory10.length)
      "undefined"))]

/-- The legend label of series `i`. -/
def legendLabelEl (textCol : String) (i : Nat) (s : Series) : Hast :=
  svgText (50 + (i : ℚ) * 100 + 16) (40 - 20 + 2) s.name
    [("text-anchor", .s "start"), ("fill", .s textCol)]

def legendItemsAux (textCol : String) (i : Nat) : List Series → List Hast
  | [] => []
  | s :: ss =>
    legendSwatchEl i :: legendLabelEl textCol i s ::
    legendItemsAux textCol (i + 1) ss

/-- The `<path>` of series `i`: the generated line data (`null` becomes
`''`), no fill, stroke `schemeCategory10[i % schemeCategory10.length]`,
fixed width, rounded joins/caps. -/
def seriesPathEl (d3 : D3Env) (xScale : JSVal → ℚ) (yScale : JSNum → ℚ)
    (i : Nat) (s : Series) : Hast :=
  el "path"
    [("d", .s ((d3.lineGen (fun d => xScale d.x) (fun d => yScale d.y)
        s.values).getD "")),
     ("fill", .s "none"),
     ("stroke", .s (schemeCategory10.getD (i % schemeCategory10.length)
        "undefined")),
     ("stroke-width", .n (3 / 2)),
     ("stroke-linejoin", .s "round"),
     ("stroke-linecap", .s "round")] []

def seriesPathsAux (d3 : D3Env) (xScale : JSVal → ℚ) (yScale : JSNum → ℚ)
    (i : Nat) : List Series → List Hast
  | [] => []
  | s :: ss =>
    seriesPathEl d3 xScale yScale i s ::
    seriesPathsAux d3 xScale yScale (i + 1) ss

/-- The X-tick `forEach` of `buildSvg` (`h` is the plot height). -/
def xTickItems (ticks : List JSVal) (xScale : JSVal → ℚ)
    (tickFmt : JSVal → String) (h : ℚ) (textCol : String) : List Hast :=
  ticks.flatMap (fun t =>
    [svgLine (xScale t) (40 + h) (xScale t) (40 + h + 6) [],
     svgText (xScale t) (40 + h + 20) (tickFmt t) [("fill", .s textCol)]])

/-- The Y-tick `forEach` of `buildSvg` (`w` is the plot width): a tick
mark, a right-aligned label, and a dashed full-width gridline. -/
def yTickItems (ticks : List ℚ) (yScale : JSNum → ℚ) (w : ℚ)
    (textCol : String) : List Hast :=
  ticks.flatMap (fun t =>
    [svgLine (50 - 6) (yScale (some t)) 50 (yScale (some t)) [],
     svgText (50 - 10) (yScale (some t) + 3) (jsNumToString t)
       [("text-anchor", .s "end"), ("fill", .s textCol)],
     svgLine 50 (yScale (some t)) (50 + w) (yScale (some t))
       [("stroke", .s "#ccc"), ("stroke-dasharray", .s "2,2")]])

/-- Model of `buildSvg` (`build-svg.ts`).  Margins are the fixed
`{top: 40, right: 20, bottom: 30, left: 50}`; children are pushed in
source order: background, title, legend, axes, X ticks, Y ticks, series
paths. -/
def buildSvg (d3 : D3Env) (series : List Series) (isDate : Bool)
    (opt : ChartOptions) : Hast :=
  let W := opt.width.getD 640
  let H := opt.height.getD 300
  let w := W - 50 - 20
  let h := H - 40 - 30
  let textCol := opt.textColor.getD "#000"
  let xs := series.flatMap (fun s => s.values.map (fun v => v.x))
  let ys := series.flatMap (fun s => s.values.map (fun v => v.y))
  let xScale := if isDate then d3.scaleTimeOf xs (50, 50 + w)
                else d3.scaleLinearXOf xs (50, 50 + w)
  let yScale := d3.scaleYOf ys (40 + h, 40)
  let tickFmt := d3.tickFormatOf isDate xs (50, 50 + w)
  let bg := match opt.backgroundColor with
            | some c => [svgRect 0 0 W H [("fill", .s c)]]
            | none => []
  let titleEls := match opt.title with
            | some t => [svgText (W / 2) 20 t
                [("font-size", .n 16), ("fill", .s textCol)]]
            | none => []
  let legend := if 1 < series.length then legendItemsAux textCol 0 series
                else []
  let axes := [svgLine 50 (40 + h) (50 + w) (40 + h) [],
               svgLine 50 40 50 (40 + h) []]
  let xticks := xTickItems
    (d3.ticksXOf isDate xs (50, 50 + w) (max 1 ⌊w / 80⌋)) xScale tickFmt
    h textCol
  let yticks := yTickItems (d3.ticksYOf ys (40 + h, 40) 5) yScale w
    textCol
  let paths := seriesPathsAux d3 xScale yScale 0 series
  svgRoot W H (bg ++ titleEls ++ legend ++ axes ++ xticks ++ yticks ++
    paths)

/-! ## The pipeline -/

/-- The detector used by the pipeline: `detectDateParser` applied to the
first cell of the second line (the first data row). -/
def detectorOf (dparse : String → Option ℤ) (allLines : List String) :
    Option DateInfo :=
  detectDateParser dparse ((splitTrim (allLines.getD 1 "")).getD 0 "")

/-- The core CSV-to-chart pipeline of `rehypeTimeseriesChart`, on the
already-split lines: structural checks (≥ 3 lines, ≥ 2 header columns,
complete second row), format detection from the first data row, the
collect/abort scan, the ≥ 2 valid-row check, then object building,
series reshaping and SVG generation.  `none` is "no chart". -/
def csvLinesToChart (d3 : D3Env) (dparse : String → Option ℤ)
    (opt : ChartOptions) (allLines : List String) : Option Hast :=
  if allLines.length < 3 then none
  else if (splitTrim (allLines.getD 0 "")).length < 2 then none
  else if (splitTrim (allLines.getD 1 "")).length ≠
      (splitTrim (allLines.getD 0 "")).length then none
  else
    match detectorOf dparse allLines with
    | none => none
    | some det =>
      match collectRows det (splitTrim (allLines.getD 0 "")).length
          (allLines.drop 1) with
      | none => none
      | some completed =>
        if completed.length < 2 then none
        else
          some (buildSvg d3
            (toSeries (completed.map
                (parseRow det (splitTrim (allLines.getD 0 ""))))
              ((splitTrim (allLines.getD 0 "")).drop 1))
            det.isDate opt)

/-- The pipeline on the raw text of a code block. -/
def csvToChart (d3 : D3Env) (dparse : String → Option ℤ)
    (opt : ChartOptions) (raw : String) : Option Hast :=
  csvLinesToChart d3 dparse opt (linesOf raw)

/-- `c.type === 'text'` filter plus value projection. -/
def textValue : Hast → Option String
  | .text v => some v
  | .element _ _ _ => none

/-- `code.properties?.className as string[]`. -/
def classNameOf (props : List (String × AVal)) : Option (List String) :=
  match (props.filter (fun p => p.1 == "className")).getLast? with
  | some (_, AVal.strs l) => some l
  | _ => none

/-- The per-node visitor body of `rehypeTimeseriesChart`: recognise
`<pre><code class="language-csv">`, extract the raw text, run the
pipeline, and produce the replacement node (the `<svg>`, or a container
`<div>` holding the `<svg>` and the original node when `saveOriginal`).
`none` means the visitor declined and the tree is untouched at this
node. -/
def processNode (d3 : D3Env) (dparse : String → Option ℤ)
    (opt : ChartOptions) (node : Hast) : Option Hast :=
  match node with
  | .text _ => none
  | .element tag _ children =>
    if tag = "pre" then
      match children.head? with
      | some (.element ctag cprops cchildren) =>
        if ctag = "code" then
          match classNameOf cprops with
          | some classes =>
            if ("language-" ++ opt.codeLanguage.getD "csv") ∈ classes then
              (csvToChart d3 dparse opt
                  (joinLines (cchildren.filterMap textValue))).map
                (fun svgNode =>
                  if opt.saveOriginal.getD false then
                    .element "div"
                      [("className", .strs [opt.containerClass.getD
                        "timeseries-chart-container"])]
                      [svgNode, node]
                  else svgNode)
            else none
          | none => none
        else none
      | _ => none
    else none

mutual

/-- The tree transformer: `visit(tree, 'element', ...)` with index-based
splice, modelled as a pure preorder rewrite — each child is replaced by
the visitor's replacement when it matches, and recursively rewritten
otherwise.  (The root itself is never replaced: the visitor returns
early when `parent` is absent.) -/
def rewriteNode (d3 : D3Env) (dparse : String → Option ℤ)
    (opt : ChartOptions) : Hast → Hast
  | .text v => .text v
  | .element tag props children =>
    .element tag props (rewriteList d3 dparse opt children)

/-- Child-list traversal of `rewriteNode`. -/
def rewriteList (d3 : D3Env) (dparse : String → Option ℤ)
    (opt : ChartOptions) : List Hast → List Hast
  | [] => []
  | c :: cs =>
    (match processNode d3 dparse opt c with
     | some r => r
     | none => rewriteNode d3 dparse opt c) :: rewriteList d3 dparse opt cs

end

/-- The plugin entry point: the returned transformer applied to a tree. -/
def rehypeTimeseriesChart (d3 : D3Env) (dparse : String → Option ℤ)
    (opt : ChartOptions) (tree : Hast) : Hast :=
  rewriteNode d3 dparse opt tree

mutual

/-- All nodes of a tree (the tree itself and its descendants). -/
def subnodes : Hast → List Hast
  | .text v => [.text v]
  | .element tag props children =>
    .element tag props children :: subnodesList children

/-- All nodes of a forest. -/
def subnodesList : List Hast → List Hast
  | [] => []
  | c :: cs => subnodes c ++ subnodesList cs

end

/-- A degenerate d3 environment for concrete evaluations. -/
def d3unit : D3Env :=
  ⟨fun _ _ _ => 0, fun _ _ _ => 0, fun _ _ _ => 0, fun _ _ _ _ => [],
   fun _ _ _ => [], fun _ _ _ _ => "", fun _ _ _ => none⟩

/-! ## Observers on the generated SVG -/

/-- Tag of an element node. -/
def tagOf : Hast → Option String
  | .element t _ _ => some t
  | .text _ => none

/-- Recognise a series `<path>` (the only `path` elements of a chart). -/
def isPathTag (n : Hast) : Bool := tagOf n == some "path"

/-- Recognise a legend swatch: a `rect` at `y = 12` of size 12×12 (the
background rectangle sits at `y = 0`, so it is never mistaken for a
swatch). -/
def isLegendSwatch (n : Hast) : Bool :=
  tagOf n == some "rect" && getProp n "y" == some (.n 12) &&
  getProp n "width" == some (.n 12) && getProp n "height" == some (.n 12)

/-- The series paths of a chart, in order. -/
def pathsOf : Hast → List Hast
  | .element _ _ cs => cs.filter isPathTag
  | .text _ => []

/-- The legend swatches of a chart, in order. -/
def legendSwatchesOf : Hast → List Hast
  | .element _ _ cs => cs.filter isLegendSwatch
  | .text _ => []


/-! ## Theorems -/

/-- **C4** — For every key sample that matches none of the explicit
date/time/epoch patterns, detection applies the generic `Date.parse`
fallback before the signed-integer pattern: a sample the generic date
parse accepts is classified as temporal, and a sample is classified as a
dimensionless plain number (non-temporal) only if the generic date parse
rejects it (and the signed-integer pattern matches). -/
theorem generic_date_before_integer_fallback
    (dparse : String → Option ℤ) (s : String)
    (hex : matchesExplicit s = false) :
    ((dparse s).isSome →
      ∃ d, detectDateParser dparse s = some d ∧ d.isDate = true) ∧
    (∀ d, detectDateParser dparse s = some d → d.isDate = false →
      dparse s = none ∧ reSignedInt s = true) := by
  simp only [matchesExplicit, Bool.or_eq_false_iff] at hex
  obtain ⟨⟨⟨⟨⟨⟨⟨⟨h1, h2⟩, h3⟩, h4⟩, h5⟩, h6⟩, h7⟩, h8⟩, h9⟩ := hex
  unfold detectDateParser
  rw [if_neg (by simp [h1]), if_neg (by simp [h2]), if_neg (by simp [h3]),
    if_neg (by simp [h4]), if_neg (by simp [h5]), if_neg (by simp [h6]),
    if_neg (by simp [h7]), if_neg (by simp [h8]), if_neg (by simp [h9])]
  constructor
  · intro hsome
    match hdp : dparse s with
    | some t => exact ⟨⟨dateParseParser dparse, true⟩, rfl, rfl⟩
    | none => rw [hdp] at hsome; simp at hsome
  · intro d hd hfalse
    match hdp : dparse s with
    | some t =>
      rw [hdp] at hd
      cases hd
      simp at hfalse
    | none =>
      rw [hdp] at hd
      by_cases hsi : reSignedInt s = true
      · rw [if_pos hsi] at hd
        exact ⟨rfl, hsi⟩
      · rw [if_neg hsi] at hd
        cases hd

/-- Witness for C4 at the sample `"abc"` with a `Date.parse` model that
accepts it. -/
theorem generic_date_before_integer_fallback_witness :
    matchesExplicit "abc" = false ∧
    (((fun _ => some 0 : String → Option ℤ) "abc").isSome →
      ∃ d, detectDateParser (fun _ => some 0) "abc" = some d ∧
        d.isDate = true) :=
  ⟨by decide,
   (generic_date_before_integer_fallback (fun _ => some 0) "abc"
     (by decide)).1⟩

/-- **C5** — For the key sample `"2024-01"` detection returns the
year-month descriptor (the `timeParse('%Y-%m')` parser, temporal), which
is distinct from the year-only descriptor and from the plain-number
descriptor: more specific anchored patterns are tested first and do not
match substrings. -/
theorem priority_ym_descriptor (dparse : String → Option ℤ) :
    detectDateParser dparse "2024-01" = some ⟨timeParseYm, true⟩ ∧
    DateInfo.mk timeParseYm true ≠ DateInfo.mk timeParseY true ∧
    DateInfo.mk timeParseYm true ≠ DateInfo.mk numberParser false := by
  refine ⟨rfl, ?_, ?_⟩
  · intro h
    have hp : timeParseYm = timeParseY := congrArg DateInfo.parser h
    have h2 : timeParseYm "2024-01" = timeParseY "2024-01" := by rw [hp]
    rw [show timeParseYm "2024-01" = JSVal.date (d3DateEnc 2024 1 1 0 0 0)
      from rfl, show timeParseY "2024-01" = JSVal.null from rfl] at h2
    cases h2
  · intro h
    have hb : true = false := congrArg DateInfo.isDate h
    cases hb

/-- **C6 (counterexample)** — The claim says the key sample `"10"` is
classified as `plain-number`; in the code the two-digit pattern `%H`
matches first, so the detector returns a temporal descriptor
(`isDate = true`), not the plain-number one. -/
theorem scenarioC_key_not_plain_number :
    detectDateParser (fun _ => none) "10" = some ⟨timeParseH, true⟩ ∧
    (DateInfo.mk timeParseH true).isDate ≠ false :=
  ⟨rfl, by decide⟩

/-- **C6 (amended)** — For the block with header `t,v` and rows `10,1`
then `abc,2`: the key sample `10` is classified by the detector as the
two-digit hour (`%H`) temporal descriptor; row 2's key `abc` then fails
the hour parse on a structurally complete row, and the pipeline's result
is no chart. -/
theorem scenarioC_no_chart (d3 : D3Env) (dparse : String → Option ℤ)
    (opt : ChartOptions) :
    detectorOf dparse ["t,v", "10,1", "abc,2"] = some ⟨timeParseH, true⟩ ∧
    rowMatchesFormat ["abc", "2"] ⟨timeParseH, true⟩ = false ∧
    csvLinesToChart d3 dparse opt ["t,v", "10,1", "abc,2"] = none :=
  ⟨rfl, rfl, rfl⟩

/-- **C7** — Format detection depends only on the header line position
and the first data line: two inputs with identical first and second
lines (identical header and identical first data row) yield the same
detected descriptor, whatever the remaining rows are; subsequent rows
are only ever validated against the result. -/
theorem detection_uses_only_first_data_row (dparse : String → Option ℤ)
    (lines1 lines2 : List String)
    (_hheader : lines1.getD 0 "" = lines2.getD 0 "")
    (hfirst : lines1.getD 1 "" = lines2.getD 1 "") :
    detectorOf dparse lines1 = detectorOf dparse lines2 := by
  unfold detectorOf
  rw [hfirst]

/-- Witness for C7: two blocks sharing header and first data row but
differing afterwards get the same descriptor. -/
theorem detection_uses_only_first_data_row_witness :
    detectorOf (fun _ => none) ["date,v", "2024-01-01,1", "x,y"] =
      detectorOf (fun _ => none) ["date,v", "2024-01-01,1", "2024,9"] :=
  detection_uses_only_first_data_row (fun _ => none) _ _ rfl rfl

/-- If every line before `bad` is complete and valid, and `bad` is
complete but fails `rowMatchesFormat`, the scan aborts (whatever follows
`bad`). -/
theorem collectRows_abort (det : DateInfo) (n : Nat)
    (pre : List String) (bad : String) (post : List String)
    (hpre : ∀ r ∈ pre, (splitTrim r).length = n ∧
      rowMatchesFormat (splitTrim r) det = true)
    (hbadc : (splitTrim bad).length = n)
    (hbadv : rowMatchesFormat (splitTrim bad) det = false) :
    collectRows det n (pre ++ bad :: post) = none := by
  induction pre with
  | nil =>
    simp only [List.nil_append, collectRows]
    rw [if_pos (by simp [isCompleteRow, hbadc]), if_neg (by simp [hbadv])]
  | cons r rs ih =>
    obtain ⟨hc, hv⟩ := hpre r (List.mem_cons_self r rs)
    simp only [List.cons_append, collectRows]
    rw [if_pos (by simp [isCompleteRow, hc]), if_pos hv]
    simp only [List.append_eq]
    rw [ih (fun x hx => hpre x (List.mem_cons_of_mem _ hx))]
    rfl

/-- If every line of `good` is complete and valid and `short` is
incomplete, the scan stops at `short` and keeps exactly the cells of
`good` (whatever follows `short`). -/
theorem collectRows_break (det : DateInfo) (n : Nat)
    (good : List String) (short : String) (rest : List String)
    (hgood : ∀ r ∈ good, (splitTrim r).length = n ∧
      rowMatchesFormat (splitTrim r) det = true)
    (hshort : (splitTrim short).length ≠ n) :
    collectRows det n (good ++ short :: rest) =
      some (good.map splitTrim) := by
  induction good with
  | nil =>
    simp only [List.nil_append, collectRows, List.map_nil]
    rw [if_neg (by simp [isCompleteRow, hshort])]
  | cons r rs ih =>
    obtain ⟨hc, hv⟩ := hgood r (List.mem_cons_self r rs)
    simp only [List.cons_append, collectRows, List.map_cons]
    rw [if_pos (by simp [isCompleteRow, hc]), if_pos hv]
    simp only [List.append_eq]
    rw [ih (fun x hx => hgood x (List.mem_cons_of_mem _ hx))]
    rfl

/-- **C1** — If some data line is structurally complete (exactly the
header's cell count) but fails the detector's semantic check (key cell
does not parse / any other cell not a finite number), the pipeline
produces no chart at all, even when all earlier data lines are complete
and valid and whatever data lines follow. -/
theorem abort_on_invalid_completed_row (d3 : D3Env)
    (dparse : String → Option ℤ) (opt : ChartOptions)
    (header bad : String) (pre post : List String) (det : DateInfo)
    (hdet : detectorOf dparse (header :: (pre ++ bad :: post)) = some det)
    (hpre : ∀ r ∈ pre, (splitTrim r).length = (splitTrim header).length ∧
      rowMatchesFormat (splitTrim r) det = true)
    (hbadc : (splitTrim bad).length = (splitTrim header).length)
    (hbadv : rowMatchesFormat (splitTrim bad) det = false) :
    csvLinesToChart d3 dparse opt (header :: (pre ++ bad :: post)) =
      none := by
  unfold csvLinesToChart
  simp only [List.getD_cons_zero, List.getD_cons_succ,
    List.drop_succ_cons, List.drop_zero]
  by_cases h3 : (header :: (pre ++ bad :: post)).length < 3
  · rw [if_pos h3]
  · rw [if_neg h3]
    by_cases h2 : (splitTrim header).length < 2
    · rw [if_pos h2]
    · rw [if_neg h2]
      have hsecond : (splitTrim ((pre ++ bad :: post).getD 0 "")).length =
          (splitTrim header).length := by
        cases pre with
        | nil => simpa using hbadc
        | cons r rs => simpa using (hpre r (List.mem_cons_self r rs)).1
      rw [if_neg (fun h => h hsecond)]
      simp only [hdet]
      simp only [collectRows_abort det (splitTrim header).length pre bad
        post hpre hbadc hbadv]

/-- Witness for C1: a valid row, then a complete but invalid row, then a
valid row again — no chart. -/
theorem abort_on_invalid_completed_row_witness :
    csvLinesToChart d3unit (fun _ => none) {}
      ["a,b", "1,2", "abc,3", "4,5"] = none :=
  abort_on_invalid_completed_row d3unit (fun _ => none) {} "a,b" "abc,3"
    ["1,2"] ["4,5"] ⟨numberParser, false⟩ rfl
    (by intro r hr
        simp only [List.mem_singleton] at hr
        subst hr
        exact ⟨rfl, rfl⟩)
    rfl rfl

/-- **C2** — For a block whose header is followed by at least two valid,
structurally complete data rows and then a final line with fewer cells
than the header, the pipeline produces a chart built from exactly the
valid rows; the short trailing line is silently dropped. -/
theorem streaming_tolerance (d3 : D3Env) (dparse : String → Option ℤ)
    (opt : ChartOptions) (header short : String) (good : List String)
    (det : DateInfo)
    (hdet : detectorOf dparse (header :: (good ++ [short])) = some det)
    (hlen2 : 2 ≤ (splitTrim header).length)
    (hgood2 : 2 ≤ good.length)
    (hgood : ∀ r ∈ good, (splitTrim r).length = (splitTrim header).length ∧
      rowMatchesFormat (splitTrim r) det = true)
    (hshort : (splitTrim short).length < (splitTrim header).length) :
    csvLinesToChart d3 dparse opt (header :: (good ++ [short])) =
      some (buildSvg d3
        (toSeries ((good.map splitTrim).map
            (parseRow det (splitTrim header)))
          ((splitTrim header).drop 1))
        det.isDate opt) := by
  unfold csvLinesToChart
  simp only [List.getD_cons_zero, List.getD_cons_succ,
    List.drop_succ_cons, List.drop_zero]
  have h3 : ¬ (header :: (good ++ [short])).length < 3 := by
    simp only [List.length_cons, List.length_append, List.length_singleton]
    omega
  rw [if_neg h3, if_neg (by omega)]
  have hsecond : (splitTrim ((good ++ [short]).getD 0 "")).length =
      (splitTrim header).length := by
    cases good with
    | nil => simp at hgood2
    | cons r rs => simpa using (hgood r (List.mem_cons_self r rs)).1
  rw [if_neg (fun h => h hsecond)]
  simp only [hdet]
  have hbreak : collectRows det (splitTrim header).length
      (good ++ [short]) = some (good.map splitTrim) :=
    collectRows_break det (splitTrim header).length good short [] hgood
      (by omega)
  simp only [hbreak]
  rw [if_neg (by simp only [List.length_map]; omega)]

/-- Witness for C2: two valid numeric rows, then a one-cell trailing
line — the chart is built from exactly the two valid rows. -/
theorem streaming_tolerance_witness :
    csvLinesToChart d3unit (fun _ => none) {} ["a,b", "1,2", "3,4", "5"] =
      some (buildSvg d3unit
        (toSeries ((["1,2", "3,4"].map splitTrim).map
            (parseRow ⟨numberParser, false⟩ (splitTrim "a,b")))
          ((splitTrim "a,b").drop 1))
        (DateInfo.mk numberParser false).isDate {}) :=
  streaming_tolerance d3unit (fun _ => none) {} "a,b" "5" ["1,2", "3,4"]
    ⟨numberParser, false⟩ rfl (by decide) (by decide)
    (by intro r hr
        simp only [List.mem_cons, List.not_mem_nil, or_false] at hr
        rcases hr with rfl | rfl
        · exact ⟨rfl, rfl⟩
        · exact ⟨rfl, rfl⟩)
    (by decide)

/-- **C3** — The pipeline produces no chart when the header has fewer
than two columns, and no chart when the scan accumulates fewer than two
valid rows. -/
theorem minimum_size_no_chart (d3 : D3Env) (dparse : String → Option ℤ)
    (opt : ChartOptions) (allLines : List String) :
    ((splitTrim (allLines.getD 0 "")).length < 2 →
      csvLinesToChart d3 dparse opt allLines = none) ∧
    (∀ det rows, detectorOf dparse allLines = some det →
      collectRows det (splitTrim (allLines.getD 0 "")).length
        (allLines.drop 1) = some rows →
      rows.length < 2 →
      csvLinesToChart d3 dparse opt allLines = none) := by
  constructor
  · intro h2
    unfold csvLinesToChart
    by_cases h3 : allLines.length < 3
    · rw [if_pos h3]
    · rw [if_neg h3, if_pos h2]
  · intro det rows hdet hrows hlt
    unfold csvLinesToChart
    by_cases h3 : allLines.length < 3
    · rw [if_pos h3]
    · rw [if_neg h3]
      by_cases h2 : (splitTrim (allLines.getD 0 "")).length < 2
      · rw [if_pos h2]
      · rw [if_neg h2]
        by_cases hsr : (splitTrim (allLines.getD 1 "")).length ≠
            (splitTrim (allLines.getD 0 "")).length
        · rw [if_pos hsr]
        · rw [if_neg hsr]
          simp only [hdet, hrows]
          rw [if_pos hlt]

/-- Witness for C3: a single-column header declines (first part), and a
block whose scan keeps only one valid row declines (second part). -/
theorem minimum_size_no_chart_witness :
    csvLinesToChart d3unit (fun _ => none) {} ["a", "1", "2"] = none ∧
    csvLinesToChart d3unit (fun _ => none) {} ["a,b", "1,2", "x"] =
      none :=
  ⟨(minimum_size_no_chart d3unit (fun _ => none) {} ["a", "1", "2"]).1
      (by decide),
   (minimum_size_no_chart d3unit (fun _ => none) {}
      ["a,b", "1,2", "x"]).2 ⟨numberParser, false⟩ [["1", "2"]] rfl rfl
      (by decide)⟩

/-! ### C8 helper lemmas: classifying the children of `buildSvg` -/

theorem isPathTag_svgRect (x y w h : ℚ) (p : List (String × AVal)) :
    isPathTag (svgRect x y w h p) = false := rfl

theorem isPathTag_svgLine (x1 y1 x2 y2 : ℚ) (p : List (String × AVal)) :
    isPathTag (svgLine x1 y1 x2 y2 p) = false := rfl

theorem isPathTag_svgText (x y : ℚ) (v : String)
    (p : List (String × AVal)) : isPathTag (svgText x y v p) = false := rfl

theorem isPathTag_legendSwatchEl (i : Nat) :
    isPathTag (legendSwatchEl i) = false := rfl

theorem isPathTag_legendLabelEl (tc : String) (i : Nat) (s : Series) :
    isPathTag (legendLabelEl tc i s) = false := rfl

theorem isPathTag_seriesPathEl (d3 : D3Env) (xSc : JSVal → ℚ)
    (ySc : JSNum → ℚ) (i : Nat) (s : Series) :
    isPathTag (seriesPathEl d3 xSc ySc i s) = true := rfl

theorem isLegendSwatch_svgLine (x1 y1 x2 y2 : ℚ)
    (p : List (String × AVal)) :
    isLegendSwatch (svgLine x1 y1 x2 y2 p) = false := rfl

theorem isLegendSwatch_svgText (x y : ℚ) (v : String)
    (p : List (String × AVal)) :
    isLegendSwatch (svgText x y v p) = false := rfl

theorem isLegendSwatch_seriesPathEl (d3 : D3Env) (xSc : JSVal → ℚ)
    (ySc : JSNum → ℚ) (i : Nat) (s : Series) :
    isLegendSwatch (seriesPathEl d3 xSc ySc i s) = false := rfl

theorem isLegendSwatch_legendLabelEl (tc : String) (i : Nat) (s : Series) :
    isLegendSwatch (legendLabelEl tc i s) = false := rfl

theorem isLegendSwatch_legendSwatchEl (i : Nat) :
    isLegendSwatch (legendSwatchEl i) = true := by
  have ht : tagOf (legendSwatchEl i) = some "rect" := rfl
  have hy : getProp (legendSwatchEl i) "y" = some (.n (40 - 20 - 8)) := rfl
  have hw : getProp (legendSwatchEl i) "width" = some (.n 12) := rfl
  have hh : getProp (legendSwatchEl i) "height" = some (.n 12) := rfl
  have h12 : (40 - 20 - 8 : ℚ) = 12 := by norm_num
  simp only [isLegendSwatch, ht, hy, hw, hh, h12, beq_self_eq_true,
    Bool.and_self]

theorem isLegendSwatch_bgRect (w h : ℚ) (c : String) :
    isLegendSwatch (svgRect 0 0 w h [("fill", .s c)]) = false := by
  have hy : getProp (svgRect 0 0 w h [("fill", .s c)]) "y" =
      some (.n 0) := rfl
  have h0 : (some (AVal.n 0) == some (AVal.n 12)) = false := by
    rw [beq_eq_false_iff_ne]
    intro h
    have h2 := Option.some.inj h
    simp only [AVal.n.injEq] at h2
    norm_num at h2
  simp only [isLegendSwatch, hy, h0, Bool.and_false, Bool.false_and]

theorem filter_pathTag_legendItems (tc : String) (ss : List Series) :
    ∀ j : Nat, (legendItemsAux tc j ss).filter isPathTag = [] := by
  induction ss with
  | nil => intro j; simp [legendItemsAux]
  | cons s ss ih =>
    intro j
    simp [legendItemsAux, List.filter_cons, isPathTag_legendSwatchEl,
      isPathTag_legendLabelEl, ih (j + 1)]

theorem filter_swatch_legendItems_getElem (tc : String) (ss : List Series) :
    ∀ j i : Nat, ((legendItemsAux tc j ss).filter isLegendSwatch)[i]? =
      (ss[i]?).map (fun _ => legendSwatchEl (j + i)) := by
  induction ss with
  | nil => intro j i; simp [legendItemsAux]
  | cons s ss ih =>
    intro j i
    simp only [legendItemsAux, List.filter_cons,
      isLegendSwatch_legendSwatchEl, isLegendSwatch_legendLabelEl,
      if_true, if_false, Bool.false_eq_true]
    cases i with
    | zero => simp
    | succ k =>
      simp only [List.getElem?_cons_succ, ih (j + 1) k]
      have : j + 1 + k = j + (k + 1) := by omega
      rw [this]

theorem filter_pathTag_xTicks (ts : List JSVal) (xSc : JSVal → ℚ)
    (fmt : JSVal → String) (h : ℚ) (tc : String) :
    (xTickItems ts xSc fmt h tc).filter isPathTag = [] := by
  induction ts with
  | nil => simp [xTickItems]
  | cons t ts ih =>
    simp only [xTickItems, List.flatMap_cons, List.filter_append] at ih ⊢
    simp [List.filter_cons, isPathTag_svgLine, isPathTag_svgText, ih]

theorem filter_swatch_xTicks (ts : List JSVal) (xSc : JSVal → ℚ)
    (fmt : JSVal → String) (h : ℚ) (tc : String) :
    (xTickItems ts xSc fmt h tc).filter isLegendSwatch = [] := by
  induction ts with
  | nil => simp [xTickItems]
  | cons t ts ih =>
    simp only [xTickItems, List.flatMap_cons, List.filter_append] at ih ⊢
    simp [List.filter_cons, isLegendSwatch_svgLine, isLegendSwatch_svgText,
      ih]

theorem filter_pathTag_yTicks (ts : List ℚ) (ySc : JSNum → ℚ) (w : ℚ)
    (tc : String) : (yTickItems ts ySc w tc).filter isPathTag = [] := by
  induction ts with
  | nil => simp [yTickItems]
  | cons t ts ih =>
    simp only [yTickItems, List.flatMap_cons, List.filter_append] at ih ⊢
    simp [List.filter_cons, isPathTag_svgLine, isPathTag_svgText, ih]

theorem filter_swatch_yTicks (ts : List ℚ) (ySc : JSNum → ℚ) (w : ℚ)
    (tc : String) : (yTickItems ts ySc w tc).filter isLegendSwatch = [] := by
  induction ts with
  | nil => simp [yTickItems]
  | cons t ts ih =>
    simp only [yTickItems, List.flatMap_cons, List.filter_append] at ih ⊢
    simp [List.filter_cons, isLegendSwatch_svgLine, isLegendSwatch_svgText,
      ih]

theorem filter_pathTag_seriesPaths (d3 : D3Env) (xSc : JSVal → ℚ)
    (ySc : JSNum → ℚ) (ss : List Series) :
    ∀ j : Nat, (seriesPathsAux d3 xSc ySc j ss).filter isPathTag =
      seriesPathsAux d3 xSc ySc j ss := by
  induction ss with
  | nil => intro j; simp [seriesPathsAux]
  | cons s ss ih =>
    intro j
    simp [seriesPathsAux, List.filter_cons, isPathTag_seriesPathEl,
      ih (j + 1)]

theorem filter_swatch_seriesPaths (d3 : D3Env) (xSc : JSVal → ℚ)
    (ySc : JSNum → ℚ) (ss : List Series) :
    ∀ j : Nat, (seriesPathsAux d3 xSc ySc j ss).filter isLegendSwatch =
      [] := by
  induction ss with
  | nil => intro j; simp [seriesPathsAux]
  | cons s ss ih =>
    intro j
    simp [seriesPathsAux, List.filter_cons, isLegendSwatch_seriesPathEl,
      ih (j + 1)]

theorem seriesPathsAux_getElem (d3 : D3Env) (xSc : JSVal → ℚ)
    (ySc : JSNum → ℚ) (ss : List Series) :
    ∀ j i : Nat, (seriesPathsAux d3 xSc ySc j ss)[i]? =
      (ss[i]?).map (fun s => seriesPathEl d3 xSc ySc (j + i) s) := by
  induction ss with
  | nil => intro j i; simp [seriesPathsAux]
  | cons s ss ih =>
    intro j i
    cases i with
    | zero => simp [seriesPathsAux]
    | succ k =>
      simp only [seriesPathsAux, List.getElem?_cons_succ, ih (j + 1) k]
      have : j + 1 + k = j + (k + 1) := by omega
      rw [this]

theorem getProp_seriesPathEl_stroke (d3 : D3Env) (xSc : JSVal → ℚ)
    (ySc : JSNum → ℚ) (i : Nat) (s : Series) :
    getProp (seriesPathEl d3 xSc ySc i s) "stroke" =
      some (.s (schemeCategory10.getD (i % schemeCategory10.length)
        "undefined")) := by
  simp [seriesPathEl, el, getProp]

theorem getProp_legendSwatchEl_fill (i : Nat) :
    getProp (legendSwatchEl i) "fill" =
      some (.s (schemeCategory10.getD (i % schemeCategory10.length)
        "undefined")) := by
  simp [legendSwatchEl, svgRect, el, getProp]

/-- The series paths of a generated chart are exactly the
`seriesPathsAux` block, for the fitted scales. -/
theorem pathsOf_buildSvg (d3 : D3Env) (series : List Series)
    (isDate : Bool) (opt : ChartOptions) :
    pathsOf (buildSvg d3 series isDate opt) =
      seriesPathsAux d3
        (if isDate then
          d3.scaleTimeOf
            (series.flatMap (fun s => s.values.map (fun v => v.x)))
            (50, 50 + (opt.width.getD 640 - 50 - 20))
        else
          d3.scaleLinearXOf
            (series.flatMap (fun s => s.values.map (fun v => v.x)))
            (50, 50 + (opt.width.getD 640 - 50 - 20)))
        (d3.scaleYOf
          (series.flatMap (fun s => s.values.map (fun v => v.y)))
          (40 + (opt.height.getD 300 - 40 - 30), 40))
        0 series := by
  unfold buildSvg
  simp only [pathsOf, svgRoot, el, List.filter_append]
  rcases hB : opt.backgroundColor with _ | bc <;>
    rcases hT : opt.title with _ | tt <;>
    by_cases hL : 1 < series.length <;>
    simp [hL, List.filter_cons, isPathTag_svgRect, isPathTag_svgLine,
      isPathTag_svgText, filter_pathTag_legendItems,
      filter_pathTag_xTicks, filter_pathTag_yTicks,
      filter_pathTag_seriesPaths]

/-- When the legend is rendered, the legend swatches of a generated chart
are exactly the swatch elements of the legend block. -/
theorem legendSwatchesOf_buildSvg (d3 : D3Env) (series : List Series)
    (isDate : Bool) (opt : ChartOptions) (hL : 1 < series.length) :
    legendSwatchesOf (buildSvg d3 series isDate opt) =
      (legendItemsAux (opt.textColor.getD "#000") 0 series).filter
        isLegendSwatch := by
  unfold buildSvg
  simp only [legendSwatchesOf, svgRoot, el, List.filter_append]
  rcases hB : opt.backgroundColor with _ | bc <;>
    rcases hT : opt.title with _ | tt <;>
    simp [hL, List.filter_cons, isLegendSwatch_bgRect,
      isLegendSwatch_svgLine, isLegendSwatch_svgText,
      filter_swatch_xTicks, filter_swatch_yTicks,
      filter_swatch_seriesPaths]

/-- **C8** — For every rendered chart with `N` series and every
`i < N`, the stroke of the `i`-th series path is palette entry
`i % 10` of the fixed 10-entry categorical palette, and whenever the
legend is rendered (`N > 1`) the fill of the `i`-th legend swatch is
that identical palette entry. -/
theorem color_consistency (d3 : D3Env) (series : List Series)
    (isDate : Bool) (opt : ChartOptions) (i : Nat)
    (hi : i < series.length) :
    ((pathsOf (buildSvg d3 series isDate opt))[i]?).bind
        (fun e => getProp e "stroke") =
      some (.s (schemeCategory10.getD (i % schemeCategory10.length)
        "undefined")) ∧
    (1 < series.length →
      ((legendSwatchesOf (buildSvg d3 series isDate opt))[i]?).bind
          (fun e => getProp e "fill") =
        some (.s (schemeCategory10.getD (i % schemeCategory10.length)
          "undefined"))) := by
  constructor
  · rw [pathsOf_buildSvg d3 series isDate opt, seriesPathsAux_getElem,
      List.getElem?_eq_getElem hi]
    simp [getProp_seriesPathEl_stroke]
  · intro hL
    rw [legendSwatchesOf_buildSvg d3 series isDate opt hL,
      filter_swatch_legendItems_getElem (opt.textColor.getD "#000")
        series 0 i, List.getElem?_eq_getElem hi]
    simp [getProp_legendSwatchEl_fill]

/-- Witness for C8 at a concrete two-series chart and `i = 1`. -/
theorem color_consistency_witness :
    1 < ([⟨"a", []⟩, ⟨"b", []⟩] : List Series).length ∧
    (((pathsOf (buildSvg d3unit [⟨"a", []⟩, ⟨"b", []⟩] false {}))[1]?).bind
        (fun e => getProp e "stroke") =
      some (.s (schemeCategory10.getD (1 % schemeCategory10.length)
        "undefined")) ∧
    (1 < ([⟨"a", []⟩, ⟨"b", []⟩] : List Series).length →
      ((legendSwatchesOf
          (buildSvg d3unit [⟨"a", []⟩, ⟨"b", []⟩] false {}))[1]?).bind
          (fun e => getProp e "fill") =
        some (.s (schemeCategory10.getD (1 % schemeCategory10.length)
          "undefined")))) :=
  ⟨by decide,
   color_consistency d3unit [⟨"a", []⟩, ⟨"b", []⟩] false {} 1 (by decide)⟩

/-! ### C9 helper lemmas: the rewrite touches only matched nodes -/

theorem self_mem_subnodes (t : Hast) : t ∈ subnodes t := by
  cases t <;> simp [subnodes]

/-- Identity of the rewrite on trees in which no node matches, by fuel
induction on the size. -/
theorem rewrite_id_fuel (d3 : D3Env) (dparse : String → Option ℤ)
    (opt : ChartOptions) :
    ∀ k : Nat,
      (∀ t : Hast, sizeOf t ≤ k →
        (∀ n ∈ subnodes t, processNode d3 dparse opt n = none) →
        rewriteNode d3 dparse opt t = t) ∧
      (∀ cs : List Hast, sizeOf cs ≤ k →
        (∀ n ∈ subnodesList cs, processNode d3 dparse opt n = none) →
        rewriteList d3 dparse opt cs = cs) := by
  intro k
  induction k with
  | zero =>
    constructor
    · intro t hs _
      exfalso
      cases t <;> simp_arith at hs
    · intro cs hs _
      exfalso
      cases cs <;> simp_arith at hs
  | succ k ih =>
    obtain ⟨ihT, ihL⟩ := ih
    constructor
    · intro t hs hn
      cases t with
      | text v => rfl
      | element tag props cs =>
        have hcs : sizeOf cs ≤ k := by simp_arith at hs; omega
        have hn' : ∀ n ∈ subnodesList cs,
            processNode d3 dparse opt n = none :=
          fun n hm => hn n (List.mem_cons_of_mem _ hm)
        simp [rewriteNode, ihL cs hcs hn']
    · intro cs hs hn
      cases cs with
      | nil => rfl
      | cons c cs' =>
        have hc : sizeOf c ≤ k := by simp_arith at hs; omega
        have hcs' : sizeOf cs' ≤ k := by simp_arith at hs; omega
        have hpc : processNode d3 dparse opt c = none :=
          hn c (List.mem_append_left _ (self_mem_subnodes c))
        have hnc : ∀ n ∈ subnodes c, processNode d3 dparse opt n = none :=
          fun n hm => hn n (List.mem_append_left _ hm)
        have hncs : ∀ n ∈ subnodesList cs',
            processNode d3 dparse opt n = none :=
          fun n hm => hn n (List.mem_append_right _ hm)
        simp [rewriteList, hpc, ihT c hc hnc, ihL cs' hcs' hncs]

/-- A tree in which no node matches is rewritten to itself. -/
theorem rewriteNode_id (d3 : D3Env) (dparse : String → Option ℤ)
    (opt : ChartOptions) (t : Hast)
    (h : ∀ n ∈ subnodes t, processNode d3 dparse opt n = none) :
    rewriteNode d3 dparse opt t = t :=
  (rewrite_id_fuel d3 dparse opt (sizeOf t)).1 t le_rfl h

/-- A matched child is replaced by the visitor's replacement, at its own
position. -/
theorem rewriteList_getElem_match (d3 : D3Env)
    (dparse : String → Option ℤ) (opt : ChartOptions) (cs : List Hast) :
    ∀ (i : Nat) (c r : Hast), cs[i]? = some c →
      processNode d3 dparse opt c = some r →
      (rewriteList d3 dparse opt cs)[i]? = some r := by
  induction cs with
  | nil => intro i c r h; simp at h
  | cons c0 cs' ih =>
    intro i c r hc hp
    cases i with
    | zero =>
      simp only [List.getElem?_cons_zero, Option.some.injEq] at hc
      subst hc
      simp [rewriteList, hp]
    | succ k =>
      simp only [List.getElem?_cons_succ] at hc ⊢
      simp only [rewriteList, List.getElem?_cons_succ]
      exact ih k c r hc hp

/-- An unmatched child whose subtree contains no match is left exactly in
place. -/
theorem rewriteList_getElem_decline (d3 : D3Env)
    (dparse : String → Option ℤ) (opt : ChartOptions) (cs : List Hast) :
    ∀ (i : Nat) (c : Hast), cs[i]? = some c →
      processNode d3 dparse opt c = none →
      (∀ n ∈ subnodes c, processNode d3 dparse opt n = none) →
      (rewriteList d3 dparse opt cs)[i]? = some c := by
  induction cs with
  | nil => intro i c h; simp at h
  | cons c0 cs' ih =>
    intro i c hc hp hsub
    cases i with
    | zero =>
      simp only [List.getElem?_cons_zero, Option.some.injEq] at hc
      subst hc
      simp [rewriteList, hp, rewriteNode_id d3 dparse opt _ hsub]
    | succ k =>
      simp only [List.getElem?_cons_succ] at hc ⊢
      simp only [rewriteList, List.getElem?_cons_succ]
      exact ih k c hc hp hsub

/-- **C9** — Whenever the transformation declines everywhere (no node of
the tree matches: wrong tag, no code child, wrong language class, or the
pipeline returns "no chart" for any reason), the tree is left exactly as
it was; and when a child matches, only that child is replaced (by the
`<svg>` or the wrapping container), while each other child whose subtree
has no match is unchanged, at its original position. -/
theorem declined_blocks_leave_tree_unchanged (d3 : D3Env)
    (dparse : String → Option ℤ) (opt : ChartOptions) (tag : String)
    (props : List (String × AVal)) (cs : List Hast) :
    ((∀ n ∈ subnodes (Hast.element tag props cs),
        processNode d3 dparse opt n = none) →
      rehypeTimeseriesChart d3 dparse opt (.element tag props cs) =
        .element tag props cs) ∧
    (rehypeTimeseriesChart d3 dparse opt (.element tag props cs) =
      .element tag props (rewriteList d3 dparse opt cs)) ∧
    (∀ (i : Nat) (c r : Hast), cs[i]? = some c →
      processNode d3 dparse opt c = some r →
      (rewriteList d3 dparse opt cs)[i]? = some r) ∧
    (∀ (i : Nat) (c : Hast), cs[i]? = some c →
      processNode d3 dparse opt c = none →
      (∀ n ∈ subnodes c, processNode d3 dparse opt n = none) →
      (rewriteList d3 dparse opt cs)[i]? = some c) :=
  ⟨fun h => rewriteNode_id d3 dparse opt _ h, rfl,
   rewriteList_getElem_match d3 dparse opt cs,
   rewriteList_getElem_decline d3 dparse opt cs⟩

/-- Witness for C9: a tree with no matching node is returned unchanged. -/
theorem declined_blocks_leave_tree_unchanged_witness :
    rehypeTimeseriesChart d3unit (fun _ => none) {}
        (.element "div" [] [.text "hi"]) =
      .element "div" [] [.text "hi"] :=
  (declined_blocks_leave_tree_unchanged d3unit (fun _ => none) {} "div"
    [] [.text "hi"]).1
    (by intro n hn
        simp only [subnodes, subnodesList, List.append_nil,
          List.mem_cons, List.mem_singleton] at hn
        rcases hn with rfl | hn
        · rfl
        · rcases hn with rfl | hn
          · rfl
          · simp at hn)

/-- **C10** — A structurally complete row whose non-key cell is the empty
string is accepted by row validation (JS `Number('')` is `0`, which is
finite), the parsed row maps that column to `0`, and on a concrete block
the pipeline charts the empty cell as `y = 0` instead of aborting. -/
theorem empty_value_cell_charted_as_zero (d3 : D3Env)
    (dparse : String → Option ℤ) (opt : ChartOptions) (det : DateInfo)
    (c0 hk nm : String) (names vals : List String) (j : Nat)
    (hkey : keyCellOk det c0 = true)
    (hvals : ∀ v ∈ vals, (jsNumber v).isSome = true)
    (hj : vals[j]? = some "")
    (hn : names[j]? = some nm) :
    rowMatchesFormat (c0 :: vals) det = true ∧
    jsNumber "" = some 0 ∧
    ((parseRow det (hk :: names) (c0 :: vals)).fields)[j]? =
      some (nm, some 0) ∧
    csvLinesToChart d3 dparse opt
        ["date,value", "2024-01-01,", "2024-01-02,5"] =
      some (buildSvg d3
        (toSeries ([["2024-01-01", ""], ["2024-01-02", "5"]].map
            (parseRow ⟨timeParseYmd, true⟩ ["date", "value"]))
          ["value"])
        true opt) := by
  refine ⟨?_, rfl, ?_, rfl⟩
  · simp only [rowMatchesFormat, hkey, Bool.true_and, List.all_eq_true]
    intro v hv
    exact hvals v hv
  · have hz : (names.zip vals)[j]? = some (nm, "") := by
      rw [List.getElem?_zip_eq_some]
      exact ⟨hn, hj⟩
    simp only [parseRow, List.drop_succ_cons, List.drop_zero,
      List.getElem?_map, hz, Option.map_some]
    rfl

/-- Witness for C10 at the row `2024-01-01,` under header `date,value`
(the line splits into two cells, the second empty). -/
theorem empty_value_cell_charted_as_zero_witness :
    splitTrim "2024-01-01," = ["2024-01-01", ""] ∧
    (rowMatchesFormat ["2024-01-01", ""] ⟨timeParseYmd, true⟩ = true ∧
    jsNumber "" = some 0 ∧
    ((parseRow ⟨timeParseYmd, true⟩ ["date", "value"]
        ["2024-01-01", ""]).fields)[0]? = some ("value", some 0) ∧
    csvLinesToChart d3unit (fun _ => none) {}
        ["date,value", "2024-01-01,", "2024-01-02,5"] =
      some (buildSvg d3unit
        (toSeries ([["2024-01-01", ""], ["2024-01-02", "5"]].map
            (parseRow ⟨timeParseYmd, true⟩ ["date", "value"]))
          ["value"])
        true {})) :=
  ⟨rfl,
   empty_value_cell_charted_as_zero d3unit (fun _ => none) {}
     ⟨timeParseYmd, true⟩ "2024-01-01" "date" "value" ["value"] [""] 0
     rfl
     (by intro v hv
         simp only [List.mem_singleton] at hv
         subst hv
         rfl)
     rfl rfl⟩
